import Mathlib

set_option maxRecDepth 8192

/-!
Verification development for a SQL query-execution gateway
(`check_users.py`): a query classifier (`is_write_query`), an MD5-keyed
TTL cache (`get_cache_key`, `is_cache_valid`, `get_cached_query`,
`set_cached_query`), and the `run_query` entry point with a
write-confirmation gate, plus the auxiliary `clear_cache` and
`get_cache_info` operations.

The embedding is shallow: the module-level mutable cache dictionary is
passed and returned explicitly, the wall clock (`time.time()`) is an
explicit `now : Int` parameter, and the MySQL connector is an oracle
record whose fallible steps (`connect`, `execute`, `commit`, `fetchall`)
either succeed or raise an engine error message, mirroring
`mysql.connector.Error`. MD5 (used by `hashlib.md5(...).hexdigest()`)
is implemented bit-for-bit per RFC 1321 so that cache-key facts are
about the actual key function.
-/

/-! ## MD5 (RFC 1321), bytes as `Nat < 256`, words as `Nat < 2^32` -/

/-- Modulus for 32-bit words. -/
def m32 : Nat := 4294967296

/-- Left-rotate a 32-bit word by `s` bits. -/
def rotl32 (x s : Nat) : Nat :=
  ((x <<< s) % m32) ||| (x >>> (32 - s))

/-- The 64 MD5 sine-derived constants. -/
def kTable : List Nat :=
  [0xd76aa478, 0xe8c7b756, 0x242070db, 0xc1bdceee,
   0xf57c0faf, 0x4787c62a, 0xa8304613, 0xfd469501,
   0x698098d8, 0x8b44f7af, 0xffff5bb1, 0x895cd7be,
   0x6b901122, 0xfd987193, 0xa679438e, 0x49b40821,
   0xf61e2562, 0xc040b340, 0x265e5a51, 0xe9b6c7aa,
   0xd62f105d, 0x02441453, 0xd8a1e681, 0xe7d3fbc8,
   0x21e1cde6, 0xc33707d6, 0xf4d50d87, 0x455a14ed,
   0xa9e3e905, 0xfcefa3f8, 0x676f02d9, 0x8d2a4c8a,
   0xfffa3942, 0x8771f681, 0x6d9d6122, 0xfde5380c,
   0xa4beea44, 0x4bdecfa9, 0xf6bb4b60, 0xbebfbc70,
   0x289b7ec6, 0xeaa127fa, 0xd4ef3085, 0x04881d05,
   0xd9d4d039, 0xe6db99e5, 0x1fa27cf8, 0xc4ac5665,
   0xf4292244, 0x432aff97, 0xab9423a7, 0xfc93a039,
   0x655b59c3, 0x8f0ccc92, 0xffeff47d, 0x85845dd1,
   0x6fa87e4f, 0xfe2ce6e0, 0xa3014314, 0x4e0811a1,
   0xf7537e82, 0xbd3af235, 0x2ad7d2bb, 0xeb86d391]

/-- The 64 MD5 per-round left-rotation amounts. -/
def sTable : List Nat :=
  [7, 12, 17, 22, 7, 12, 17, 22, 7, 12, 17, 22, 7, 12, 17, 22,
   5, 9, 14, 20, 5, 9, 14, 20, 5, 9, 14, 20, 5, 9, 14, 20,
   4, 11, 16, 23, 4, 11, 16, 23, 4, 11, 16, 23, 4, 11, 16, 23,
   6, 10, 15, 21, 6, 10, 15, 21, 6, 10, 15, 21, 6, 10, 15, 21]

/-- The MD5 round mixing function (selected by round index `i`). -/
def md5F (i b c d : Nat) : Nat :=
  if i < 16 then (b &&& c) ||| ((4294967295 - b) &&& d)
  else if i < 32 then (d &&& b) ||| ((4294967295 - d) &&& c)
  else if i < 48 then b ^^^ c ^^^ d
  else c ^^^ (b ||| (4294967295 - d))

/-- The MD5 message-word index for round `i`. -/
def md5G (i : Nat) : Nat :=
  if i < 16 then i
  else if i < 32 then (5 * i + 1) % 16
  else if i < 48 then (3 * i + 5) % 16
  else (7 * i) % 16

/-- Little-endian 32-bit word number `j` of a 64-byte chunk. -/
def chunkWord (chunk : List Nat) (j : Nat) : Nat :=
  chunk.getD (4 * j) 0 + 256 * chunk.getD (4 * j + 1) 0 +
    65536 * chunk.getD (4 * j + 2) 0 + 16777216 * chunk.getD (4 * j + 3) 0

/-- One MD5 round: state `(a, b, c, d)` to `(d, b + rotl(...), b, c)`. -/
def md5Step (chunk : List Nat) (st : Nat × Nat × Nat × Nat) (i : Nat) :
    Nat × Nat × Nat × Nat :=
  let f := (md5F i st.2.1 st.2.2.1 st.2.2.2 + st.1 + kTable.getD i 0 +
    chunkWord chunk (md5G i)) % m32
  (st.2.2.2, (st.2.1 + rotl32 f (sTable.getD i 0)) % m32, st.2.1, st.2.2.1)

/-- Process one 64-byte chunk: 64 rounds, then add to the incoming state. -/
def md5Chunk (st : Nat × Nat × Nat × Nat) (chunk : List Nat) :
    Nat × Nat × Nat × Nat :=
  let r := (List.range 64).foldl (fun acc i => md5Step chunk acc i) st
  ((st.1 + r.1) % m32, (st.2.1 + r.2.1) % m32,
   (st.2.2.1 + r.2.2.1) % m32, (st.2.2.2 + r.2.2.2) % m32)

/-- Split into 64-byte chunks, with fuel for structural recursion. -/
def chunkifyAux : Nat → List Nat → List (List Nat)
  | 0, _ => []
  | _, [] => []
  | fuel + 1, b :: rest =>
    (b :: rest).take 64 :: chunkifyAux fuel ((b :: rest).drop 64)

/-- Split a byte list into 64-byte chunks. -/
def chunkify (l : List Nat) : List (List Nat) :=
  chunkifyAux l.length l

/-- The `k` low-order bytes of `n`, little-endian. -/
def leBytes (n k : Nat) : List Nat :=
  (List.range k).map (fun i => (n >>> (8 * i)) % 256)

/-- MD5 padding: `0x80`, zeros to 56 mod 64, then the 64-bit bit length. -/
def md5Pad (msg : List Nat) : List Nat :=
  let zeros := (56 + 64 - ((msg.length + 1) % 64)) % 64
  msg ++ [0x80] ++ List.replicate zeros 0 ++
    leBytes ((8 * msg.length) % 18446744073709551616) 8

/-- The 16-byte MD5 digest of a byte list. -/
def md5Bytes (msg : List Nat) : List Nat :=
  let st := (chunkify (md5Pad msg)).foldl md5Chunk
    (0x67452301, 0xefcdab89, 0x98badcfe, 0x10325476)
  leBytes st.1 4 ++ leBytes st.2.1 4 ++ leBytes st.2.2.1 4 ++ leBytes st.2.2.2 4

/-- Lowercase hexadecimal digit for `n < 16`. -/
def hexDigitChar (n : Nat) : Char :=
  if n < 10 then Char.ofNat (48 + n) else Char.ofNat (87 + n)

/-- Two lowercase hex characters per byte, high nibble first. -/
def hexOfBytes : List Nat → List Char
  | [] => []
  | b :: bs => hexDigitChar (b / 16 % 16) :: hexDigitChar (b % 16) :: hexOfBytes bs

/-- UTF-8 encoding of one character, as Python `str.encode` produces. -/
def utf8EncodeChar (c : Char) : List Nat :=
  let n := c.toNat
  if n < 128 then [n]
  else if n < 2048 then [192 ||| (n >>> 6), 128 ||| (n &&& 63)]
  else if n < 65536 then
    [224 ||| (n >>> 12), 128 ||| ((n >>> 6) &&& 63), 128 ||| (n &&& 63)]
  else
    [240 ||| (n >>> 18), 128 ||| ((n >>> 12) &&& 63),
     128 ||| ((n >>> 6) &&& 63), 128 ||| (n &&& 63)]

/-- Python `query.encode()`: UTF-8 bytes of the string. -/
def pyEncode (s : String) : List Nat :=
  (s.data.map utf8EncodeChar).flatten

/-- Source `get_cache_key(query)`: `hashlib.md5(query.encode()).hexdigest()`. -/
def get_cache_key (query : String) : String :=
  String.mk (hexOfBytes (md5Bytes (pyEncode query)))

/-! ## Data model: database values, rows, cache store -/

/-- A typed value as delivered by the database driver (before the
gateway stringifies it). `none` at the row level models SQL NULL. -/
inductive DBValue where
  | intVal (n : Int)
  | strVal (s : String)
deriving DecidableEq

/-- Python `str(value)` on a database value. -/
def pyStr : DBValue → String
  | .intVal n => toString n
  | .strVal s => s

/-- A driver row: ordered column-name/value pairs (`dictionary=True`). -/
abbrev PyRow := List (String × Option DBValue)

/-- A stringified row as stored in results and in the cache. -/
abbrev CleanRow := List (String × Option String)

/-- One entry of the module-level `_cache` dict:
`{"data": ..., "timestamp": ...}`. -/
structure CacheEntry where
  data : List CleanRow
  timestamp : Int
deriving DecidableEq

/-- The `_cache` dict, as an insertion-ordered association list with
distinct keys (Python dict semantics starting from the empty dict). -/
abbrev Cache := List (String × CacheEntry)

/-- Python `_cache.get(key)`. -/
def dictGet : Cache → String → Option CacheEntry
  | [], _ => none
  | p :: rest, k => if p.1 = k then some p.2 else dictGet rest k

/-- Python `_cache[key] = entry`: overwrite in place or append. -/
def dictSet : Cache → String → CacheEntry → Cache
  | [], k, v => [(k, v)]
  | p :: rest, k, v => if p.1 = k then (k, v) :: rest else p :: dictSet rest k v

/-- Source constant `CACHE_TTL = 300` (5 minutes). -/
def CACHE_TTL : Int := 300

/-- Source `is_cache_valid(cache_entry, ttl)`: `False` for a missing
entry, else strict `(time.time() - entry["timestamp"]) < ttl`. -/
def is_cache_valid (now : Int) (cache_entry : Option CacheEntry) (ttl : Int) : Bool :=
  match cache_entry with
  | none => false
  | some e => now - e.timestamp < ttl

/-- Source `get_cached_query(query)`: look up the fingerprint and return
the stored data only while the entry is valid. -/
def get_cached_query (now : Int) (cache : Cache) (query : String) :
    Option (List CleanRow) :=
  match dictGet cache (get_cache_key query) with
  | some entry =>
    if is_cache_valid now (some entry) CACHE_TTL then some entry.data else none
  | none => none

/-- Source `set_cached_query(query, data)`: store data under the
query's fingerprint with the current timestamp. -/
def set_cached_query (now : Int) (cache : Cache) (query : String)
    (data : List CleanRow) : Cache :=
  dictSet cache (get_cache_key query) ⟨data, now⟩

/-- Python truthiness of `get_cached_query`'s result (`if cached:`):
`None` and the empty list are both falsy. -/
def pyTruthy : Option (List CleanRow) → Bool
  | none => false
  | some l => !l.isEmpty

/-! ## Query classifier -/

/-- Python `s.strip()`: drop whitespace from both ends. -/
def pyStrip (s : String) : String :=
  ⟨((s.data.dropWhile Char.isWhitespace).reverse.dropWhile Char.isWhitespace).reverse⟩

/-- Python `s[:n]`: the first `n` characters. -/
def pyTake (s : String) (n : Nat) : String :=
  ⟨s.data.take n⟩

/-- Source list `write_keywords`. -/
def write_keywords : List String :=
  ["INSERT", "UPDATE", "DELETE", "ALTER", "DROP", "CREATE", "TRUNCATE", "REPLACE"]

/-- Character-list prefix test. -/
def listPre : List Char → List Char → Bool
  | [], _ => true
  | _ :: _, [] => false
  | a :: as, b :: bs => a == b && listPre as bs

/-- Python `s.startswith(p)`. -/
def pyStartswith (s p : String) : Bool :=
  listPre p.data s.data

/-- Python `s.upper()` (ASCII case mapping suffices for the SQL keywords). -/
def pyUpper (s : String) : String :=
  ⟨s.data.map Char.toUpper⟩

/-- Source `is_write_query(query)`: uppercase the stripped query and test
`any(query_upper.startswith(keyword) for keyword in write_keywords)`. -/
def is_write_query (query : String) : Bool :=
  let query_upper := pyUpper (pyStrip query)
  write_keywords.any (fun keyword => pyStartswith query_upper keyword)

/-! ## Execution results and the database oracle -/

/-- Stringification of one fetched row: `str(value) if value is not None
else None`, keys preserved. -/
def cleanRow (row : PyRow) : CleanRow :=
  row.map (fun p => (p.1, match p.2 with
    | some v => some (pyStr v)
    | none => none))

/-- The shapes of dicts `run_query` returns, one constructor per
`return` site. -/
inductive QueryResult where
  | writeBlocked (error : String) (query_type : String) (message : String)
      (query_preview : String)
  | cacheHit (data : List CleanRow) (cached : Bool) (query_type : String)
      (message : String)
  | writeDone (success : Bool) (query_type : String) (affected_rows : Int)
      (message : String)
  | readDone (data : List CleanRow) (cached : Bool) (query_type : String)
      (count : Nat) (message : String)
  | dbError (error : String)
deriving DecidableEq

instance {α β : Type} [DecidableEq α] [DecidableEq β] : DecidableEq (Except α β) :=
  fun x y =>
    match x, y with
    | .ok a, .ok b =>
      if h : a = b then isTrue (congrArg Except.ok h)
      else isFalse (fun hh => h (Except.ok.inj hh))
    | .error a, .error b =>
      if h : a = b then isTrue (congrArg Except.error h)
      else isFalse (fun hh => h (Except.error.inj hh))
    | .ok _, .error _ => isFalse (fun hh => Except.noConfusion hh)
    | .error _, .ok _ => isFalse (fun hh => Except.noConfusion hh)

/-- Oracle for one `run_query` call's database interaction. Each fallible
driver step either succeeds or raises `mysql.connector.Error` with a
message; `rowcount` is the value `cursor.rowcount` would report. -/
structure DB where
  connect : Except String Unit
  execute : Except String Unit
  rowcount : Int
  fetchall : Except String (List PyRow)
  commit : Except String Unit
deriving DecidableEq

/-- The engine message of the first driver step that fails in source
order (connect, execute, then commit for writes / fetchall for reads),
`none` when the whole interaction succeeds. -/
def firstFailure (db : DB) (is_write : Bool) : Option String :=
  match db.connect with
  | .error e => some e
  | .ok _ =>
    match db.execute with
    | .error e => some e
    | .ok _ =>
      if is_write then
        match db.commit with
        | .error e => some e
        | .ok _ => none
      else
        match db.fetchall with
        | .error e => some e
        | .ok _ => none

/-! ## The gateway entry point and auxiliary tools -/

/-- The database-execution section of `run_query` (the code from
`db = get_db()` to the two success `return`s, with the surrounding
`try/except Error` modelled by the `.error` branches producing
`QueryResult.dbError` and leaving the cache untouched). `is_write` and
`use_cache` are the values those locals hold when this section runs. -/
def run_query_exec (db : DB) (now : Int) (cache : Cache) (query : String)
    (use_cache : Bool) (is_write : Bool) : QueryResult × Cache :=
  match db.connect with
  | .error e => (QueryResult.dbError ("Database error: " ++ e), cache)
  | .ok _ =>
    match db.execute with
    | .error e => (QueryResult.dbError ("Database error: " ++ e), cache)
    | .ok _ =>
      if is_write then
        match db.commit with
        | .error e => (QueryResult.dbError ("Database error: " ++ e), cache)
        | .ok _ =>
          (QueryResult.writeDone true "WRITE" db.rowcount
            ("Write operation completed successfully. " ++
              toString db.rowcount ++ " row(s) affected."),
           [])
      else
        match db.fetchall with
        | .error e => (QueryResult.dbError ("Database error: " ++ e), cache)
        | .ok results =>
          let data := results.map cleanRow
          let cache2 :=
            if use_cache then set_cached_query now cache query data else cache
          (QueryResult.readDone data false "READ" data.length
            ("Query executed successfully. " ++ toString data.length ++
              " row(s) returned."),
           cache2)

/-- Source `run_query(query, use_cache, force_refresh, confirm_write)`.
The cache is passed in and returned; `now` is the wall clock. -/
def run_query (db : DB) (now : Int) (cache : Cache) (query : String)
    (use_cache : Bool) (force_refresh : Bool) (confirm_write : Bool) :
    QueryResult × Cache :=
  let is_write := is_write_query query
  if is_write && !confirm_write then
    (QueryResult.writeBlocked
      "Write operation detected. This query will modify data."
      "WRITE"
      "To execute this query, set confirm_write=True. Example: run_query(query, confirm_write=True)"
      (if query.length > 100 then pyTake query 100 ++ "..." else query),
     cache)
  else
    let use_cache := if is_write then false else use_cache
    if use_cache && !force_refresh && !is_write then
      match get_cached_query now cache query with
      | some data =>
        if data.isEmpty then run_query_exec db now cache query use_cache is_write
        else (QueryResult.cacheHit data true "READ" "Data retrieved from cache", cache)
      | none => run_query_exec db now cache query use_cache is_write
    else run_query_exec db now cache query use_cache is_write

/-- Source `clear_cache()`: empty the store, return the message. -/
def clear_cache (_cache : Cache) : String × Cache :=
  ("Cache cleared successfully", [])

/-- One element of `get_cache_info`'s `cache_entries` list. -/
structure CacheEntryInfo where
  key : String
  age_seconds : Int
  is_valid : Bool
  row_count : Nat
deriving DecidableEq

/-- The dict `get_cache_info` returns. -/
structure CacheInfo where
  total_cached_queries : Nat
  cache_entries : List CacheEntryInfo
deriving DecidableEq

/-- Source `get_cache_info()`: entry count plus, per entry, truncated key
preview, age, validity recomputed now, and row count. -/
def get_cache_info (now : Int) (cache : Cache) : CacheInfo :=
  ⟨cache.length,
   cache.map (fun p =>
     ⟨pyTake p.1 16 ++ "...", now - p.2.timestamp,
      is_cache_valid now (some p.2) CACHE_TTL,
      if p.2.data.isEmpty then 0 else p.2.data.length⟩)⟩

/-! ## Spec-side classifier (for comparing against `is_write_query`) -/

/-- Modelled from the spec: the first whitespace-delimited token of the
trimmed query. -/
def firstToken (s : String) : String :=
  ⟨(pyStrip s).data.takeWhile (fun c => !c.isWhitespace)⟩

/-- Modelled from the spec: a classifier that compares a case-insensitive
match of the FIRST TOKEN against the fixed keyword set, as the spec
describes the classifier (to be compared with `is_write_query`). -/
def spec_classify_write (q : String) : Bool :=
  write_keywords.contains (pyUpper (firstToken q))

/-! ## Concrete oracles and queries used by witnesses and counterexamples -/

/-- Three `wp_users` rows as the driver would deliver them, one with a
NULL column. -/
def rows3 : List PyRow :=
  [[("ID", some (.intVal 1)), ("name", some (.strVal "alice"))],
   [("ID", some (.intVal 2)), ("name", none)],
   [("ID", some (.intVal 3)), ("name", some (.strVal "bob"))]]

/-- The stringified form of `rows3`. -/
def data3 : List CleanRow :=
  [[("ID", some "1"), ("name", some "alice")],
   [("ID", some "2"), ("name", none)],
   [("ID", some "3"), ("name", some "bob")]]

/-- A database oracle whose read returns `rows3`. -/
def dbRead3 : DB := ⟨.ok (), .ok (), 0, .ok rows3, .ok ()⟩

/-- A database oracle whose read returns zero rows. -/
def dbReadEmpty : DB := ⟨.ok (), .ok (), 0, .ok [], .ok ()⟩

/-- A database oracle for a write affecting one row. -/
def dbWrite1 : DB := ⟨.ok (), .ok (), 1, .ok [], .ok ()⟩

/-- A database oracle whose connection attempt raises. -/
def dbConnFail : DB := ⟨.error "Cannot connect to MySQL server", .ok (), 0, .ok [], .ok ()⟩

/-- A read query whose result set is empty. -/
def qEmptyRead : String := "SELECT * FROM wp_users WHERE 1=0"

/-- A query whose first token is not a write keyword but extends one. -/
def qTokenTrap : String := "UPDATES wp_users SET display_name = X"

/-! ## Helper lemmas -/

theorem dictGet_dictSet (c : Cache) (k : String) (v : CacheEntry) :
    dictGet (dictSet c k v) k = some v := by
  induction c with
  | nil => simp [dictGet, dictSet]
  | cons p rest ih =>
    by_cases h : p.1 = k
    · simp [dictGet, dictSet, h]
    · simp [dictGet, dictSet, h, ih]

theorem hexOfBytes_length (l : List Nat) :
    (hexOfBytes l).length = 2 * l.length := by
  induction l with
  | nil => simp [hexOfBytes]
  | cons b bs ih => simp [hexOfBytes, ih]; omega

theorem md5Bytes_length (msg : List Nat) : (md5Bytes msg).length = 16 := by
  simp [md5Bytes, leBytes]

theorem get_cache_key_length_aux (q : String) : (get_cache_key q).length = 32 := by
  show (hexOfBytes (md5Bytes (pyEncode q))).length = 32
  rw [hexOfBytes_length, md5Bytes_length]

theorem listPre_iff (p s : List Char) :
    listPre p s = true ↔ ∃ t, s = p ++ t := by
  induction p generalizing s with
  | nil => simp [listPre]
  | cons a as ih =>
    cases s with
    | nil =>
      simp only [listPre, List.cons_append]
      constructor
      · intro h; exact absurd h (by simp)
      · rintro ⟨t, ht⟩; exact absurd ht (by simp)
    | cons b bs =>
      simp only [listPre, Bool.and_eq_true, beq_iff_eq, ih, List.cons_append,
        List.cons.injEq]
      constructor
      · rintro ⟨hab, t, ht⟩; exact ⟨t, hab.symm, ht⟩
      · rintro ⟨t, hab, ht⟩; exact ⟨hab.symm, t, ht⟩

theorem string_append_mk (a b : List Char) :
    (String.mk a) ++ (String.mk b) = String.mk (a ++ b) := rfl

theorem pyStartswith_iff (s p : String) :
    pyStartswith s p = true ↔ ∃ t : String, s = p ++ t := by
  rw [pyStartswith, listPre_iff]
  constructor
  · rintro ⟨l, hl⟩
    refine ⟨String.mk l, ?_⟩
    cases s with
    | mk sd =>
      cases p with
      | mk pd => rw [string_append_mk]; exact congrArg String.mk hl
  · rintro ⟨t, ht⟩
    refine ⟨t.data, ?_⟩
    cases s with
    | mk sd =>
      cases p with
      | mk pd =>
        cases t with
        | mk td => rw [string_append_mk] at ht; exact congrArg String.data ht

theorem cleanRow_eq_map (r : PyRow) :
    cleanRow r = r.map (fun p => (p.1, p.2.map pyStr)) := by
  unfold cleanRow
  apply List.map_congr_left
  intro p _
  cases p.2 <;> rfl

theorem run_query_exec_failure (db : DB) (now : Int) (cache : Cache) (query : String)
    (use_cache is_write : Bool) (e : String)
    (hfail : firstFailure db is_write = some e) :
    run_query_exec db now cache query use_cache is_write =
      (QueryResult.dbError ("Database error: " ++ e), cache) := by
  cases hcn : db.connect with
  | error ec =>
    simp only [firstFailure, hcn] at hfail
    simp [run_query_exec, hcn, Option.some.inj hfail]
  | ok u =>
    cases hex : db.execute with
    | error ec =>
      simp only [firstFailure, hcn, hex] at hfail
      simp [run_query_exec, hcn, hex, Option.some.inj hfail]
    | ok u2 =>
      cases is_write with
      | true =>
        cases hcm : db.commit with
        | error ec =>
          simp only [firstFailure, hcn, hex, hcm] at hfail
          simp [run_query_exec, hcn, hex, hcm, Option.some.inj hfail]
        | ok u3 => simp [firstFailure, hcn, hex, hcm] at hfail
      | false =>
        cases hf : db.fetchall with
        | error ec =>
          simp only [firstFailure, hcn, hex, hf] at hfail
          simp [run_query_exec, hcn, hex, hf, Option.some.inj hfail]
        | ok rows => simp [firstFailure, hcn, hex, hf] at hfail

theorem run_query_exec_read (db : DB) (now : Int) (cache : Cache) (query : String)
    (use_cache : Bool) (rows : List PyRow)
    (hc : db.connect = .ok ()) (he : db.execute = .ok ()) (hf : db.fetchall = .ok rows) :
    run_query_exec db now cache query use_cache false =
      (QueryResult.readDone (rows.map cleanRow) false "READ" (rows.map cleanRow).length
        ("Query executed successfully. " ++ toString (rows.map cleanRow).length ++
          " row(s) returned."),
       if use_cache then set_cached_query now cache query (rows.map cleanRow) else cache) := by
  simp [run_query_exec, hc, he, hf]

theorem run_query_eq_exec (db : DB) (now : Int) (cache : Cache) (query : String)
    (use_cache force_refresh confirm_write : Bool)
    (hgate : ¬(is_write_query query = true ∧ confirm_write = false))
    (hmiss : use_cache = false ∨ force_refresh = true ∨ is_write_query query = true ∨
      pyTruthy (get_cached_query now cache query) = false) :
    run_query db now cache query use_cache force_refresh confirm_write =
      run_query_exec db now cache query
        (if is_write_query query then false else use_cache) (is_write_query query) := by
  by_cases hw : is_write_query query = true
  · have hcw : confirm_write = true := by
      cases confirm_write
      · exact absurd ⟨hw, rfl⟩ hgate
      · rfl
    subst hcw
    simp [run_query, hw]
  · simp only [Bool.not_eq_true] at hw
    rcases hmiss with h | h | h | h
    · subst h; simp [run_query, hw]
    · subst h; simp [run_query, hw]
    · rw [hw] at h; cases h
    · cases huc : use_cache with
      | false => simp [run_query, hw, huc]
      | true =>
        cases hfr : force_refresh with
        | true => simp [run_query, hw, hfr]
        | false =>
          cases hgc : get_cached_query now cache query with
          | none => simp [run_query, hw, hgc]
          | some data =>
            have hde : data.isEmpty = true := by
              simpa [pyTruthy, hgc] using h
            simp [run_query, hw, hgc, hde]

theorem run_query_cache_hit (db : DB) (now : Int) (cache : Cache) (query : String)
    (confirm_write : Bool) (data : List CleanRow)
    (hw : is_write_query query = false)
    (hgc : get_cached_query now cache query = some data)
    (hne : data.isEmpty = false) :
    run_query db now cache query true false confirm_write =
      (QueryResult.cacheHit data true "READ" "Data retrieved from cache", cache) := by
  simp [run_query, hw, hgc, hne]

theorem get_cached_query_set (t1 t2 : Int) (cache : Cache) (query : String)
    (data : List CleanRow) :
    get_cached_query t2 (set_cached_query t1 cache query data) query =
      if t2 - t1 < CACHE_TTL then some data else none := by
  simp [get_cached_query, set_cached_query, dictGet_dictSet, is_cache_valid]

/-! ## Claims -/

/-- C1: for every query classified WRITE, `run_query` with
`confirm_write=false` returns immediately with a `writeBlocked` result
carrying `query_type="WRITE"` (the machine-checkable withheld signal),
the cache is left completely unchanged, and the database is never
contacted (the outcome is independent of the database oracle),
regardless of `use_cache` and `force_refresh`. -/
theorem run_query_write_gate (db : DB) (now : Int) (cache : Cache) (query : String)
    (use_cache force_refresh : Bool) (hw : is_write_query query = true) :
    run_query db now cache query use_cache force_refresh false =
      (QueryResult.writeBlocked
        "Write operation detected. This query will modify data."
        "WRITE"
        "To execute this query, set confirm_write=True. Example: run_query(query, confirm_write=True)"
        (if query.length > 100 then pyTake query 100 ++ "..." else query),
       cache) ∧
    (∀ db2 : DB, run_query db2 now cache query use_cache force_refresh false =
      run_query db now cache query use_cache force_refresh false) := by
  constructor
  · simp [run_query, hw]
  · intro db2; simp [run_query, hw]

/-- Witness for C1 at the concrete write query `DROP TABLE wp_logs` and a
non-empty cache. -/
theorem run_query_write_gate_witness :
    is_write_query "DROP TABLE wp_logs" = true ∧
    run_query dbWrite1 0 [("k", ⟨[[("a", some "1")]], 0⟩)] "DROP TABLE wp_logs"
        true false false =
      (QueryResult.writeBlocked
        "Write operation detected. This query will modify data."
        "WRITE"
        "To execute this query, set confirm_write=True. Example: run_query(query, confirm_write=True)"
        "DROP TABLE wp_logs",
       [("k", ⟨[[("a", some "1")]], 0⟩)]) :=
  ⟨by decide,
   ((run_query_write_gate dbWrite1 0 [("k", ⟨[[("a", some "1")]], 0⟩)] "DROP TABLE wp_logs"
      true false (by decide)).1).trans (by decide)⟩

/-- C2: for every WRITE query executed with `confirm_write=true` whose
connect, execute and commit all succeed, `run_query` empties the whole
cache store (whatever it contained) and returns
`{success=true, query_type="WRITE", affected_rows}`. -/
theorem run_query_write_commit_clears_cache (db : DB) (now : Int) (cache : Cache)
    (query : String) (use_cache force_refresh : Bool)
    (hw : is_write_query query = true)
    (hc : db.connect = .ok ()) (he : db.execute = .ok ()) (hcm : db.commit = .ok ()) :
    run_query db now cache query use_cache force_refresh true =
      (QueryResult.writeDone true "WRITE" db.rowcount
        ("Write operation completed successfully. " ++ toString db.rowcount ++
          " row(s) affected."),
       []) := by
  simp [run_query, run_query_exec, hw, hc, he, hcm]

/-- Witness for C2 at a concrete DELETE against a non-empty cache. -/
theorem run_query_write_commit_clears_cache_witness :
    is_write_query "DELETE FROM wp_users WHERE ID=9" = true ∧
    run_query dbWrite1 7 [("k", ⟨[[("a", some "1")]], 0⟩)] "DELETE FROM wp_users WHERE ID=9"
        true false true =
      (QueryResult.writeDone true "WRITE" 1
        "Write operation completed successfully. 1 row(s) affected.", []) :=
  ⟨by decide,
   (run_query_write_commit_clears_cache dbWrite1 7 [("k", ⟨[[("a", some "1")]], 0⟩)]
      "DELETE FROM wp_users WHERE ID=9" true false (by decide) rfl rfl rfl).trans (by decide)⟩

/-- C3 (amended): for every READ query executed with `use_cache=true` and
`force_refresh=false` whose fetched result set is NON-EMPTY, a second
call while the stored entry's age is within TTL returns the identical
payload with `cached=true` without contacting the database (the oracle
of the second call is arbitrary and the cache is unchanged); once TTL
has elapsed, the second call re-executes against the database. The
amendment restricts the claim to non-empty payloads: the source's
`if cached:` truthiness test makes an empty cached payload fall through
to re-execution (see the counterexample and C10). -/
theorem run_query_read_cache_roundtrip
    (db db2 db3 : DB) (t1 t2 : Int) (cache : Cache) (query : String)
    (rows rows2 : List PyRow) (cw cw2 : Bool)
    (hw : is_write_query query = false)
    (hc : db.connect = .ok ()) (he : db.execute = .ok ()) (hf : db.fetchall = .ok rows)
    (hne : rows ≠ [])
    (hmiss : pyTruthy (get_cached_query t1 cache query) = false) :
    run_query db t1 cache query true false cw =
      (QueryResult.readDone (rows.map cleanRow) false "READ" (rows.map cleanRow).length
        ("Query executed successfully. " ++ toString (rows.map cleanRow).length ++
          " row(s) returned."),
       set_cached_query t1 cache query (rows.map cleanRow)) ∧
    (t2 - t1 < CACHE_TTL →
      run_query db2 t2 (set_cached_query t1 cache query (rows.map cleanRow)) query
          true false cw2 =
        (QueryResult.cacheHit (rows.map cleanRow) true "READ" "Data retrieved from cache",
         set_cached_query t1 cache query (rows.map cleanRow))) ∧
    (CACHE_TTL ≤ t2 - t1 → db3.connect = .ok () → db3.execute = .ok () →
      db3.fetchall = .ok rows2 →
      (run_query db3 t2 (set_cached_query t1 cache query (rows.map cleanRow)) query
          true false cw2).1 =
        QueryResult.readDone (rows2.map cleanRow) false "READ" (rows2.map cleanRow).length
          ("Query executed successfully. " ++ toString (rows2.map cleanRow).length ++
            " row(s) returned.")) := by
  have hdata_ne : (rows.map cleanRow).isEmpty = false := by
    cases rows with
    | nil => exact absurd rfl hne
    | cons r rs => rfl
  refine ⟨?_, ?_, ?_⟩
  · rw [run_query_eq_exec db t1 cache query true false cw (by simp [hw])
      (Or.inr (Or.inr (Or.inr hmiss))), hw]
    have := run_query_exec_read db t1 cache query (if false then false else true) rows hc he hf
    simpa using this
  · intro hlt
    apply run_query_cache_hit db2 t2 _ query cw2 _ hw
    · rw [get_cached_query_set]; simp [hlt]
    · exact hdata_ne
  · intro hge hc3 he3 hf3
    have hstale : pyTruthy (get_cached_query t2
        (set_cached_query t1 cache query (rows.map cleanRow)) query) = false := by
      rw [get_cached_query_set, if_neg (by omega)]
      rfl
    rw [run_query_eq_exec db3 t2 (set_cached_query t1 cache query (rows.map cleanRow))
      query true false cw2 (by simp [hw])
      (Or.inr (Or.inr (Or.inr hstale))), hw]
    have := run_query_exec_read db3 t2
      (set_cached_query t1 cache query (rows.map cleanRow)) query
      (if false then false else true) rows2 hc3 he3 hf3
    rw [this]

/-- Witness for C3 (amended): a 3-row SELECT is stored, served back
verbatim from the cache at age 100 even with a broken database oracle,
and re-executed at age 400. -/
theorem run_query_read_cache_roundtrip_witness :
    run_query dbRead3 0 [] "SELECT * FROM wp_users" true false false =
      (QueryResult.readDone data3 false "READ" 3
        "Query executed successfully. 3 row(s) returned.",
       [(get_cache_key "SELECT * FROM wp_users", ⟨data3, 0⟩)]) ∧
    run_query dbConnFail 100 [(get_cache_key "SELECT * FROM wp_users", ⟨data3, 0⟩)]
        "SELECT * FROM wp_users" true false false =
      (QueryResult.cacheHit data3 true "READ" "Data retrieved from cache",
       [(get_cache_key "SELECT * FROM wp_users", ⟨data3, 0⟩)]) ∧
    (run_query dbRead3 400 [(get_cache_key "SELECT * FROM wp_users", ⟨data3, 0⟩)]
        "SELECT * FROM wp_users" true false false).1 =
      QueryResult.readDone data3 false "READ" 3
        "Query executed successfully. 3 row(s) returned." := by
  have h := run_query_read_cache_roundtrip dbRead3 dbConnFail dbRead3 0 100 []
    "SELECT * FROM wp_users" rows3 rows3 false false (by decide) rfl rfl rfl
    (by decide) (by decide)
  have h2 := run_query_read_cache_roundtrip dbRead3 dbConnFail dbRead3 0 400 []
    "SELECT * FROM wp_users" rows3 rows3 false false (by decide) rfl rfl rfl
    (by decide) (by decide)
  exact ⟨h.1.trans (by decide), (h.2.1 (by decide)).trans (by decide),
    (h2.2.2 (by decide) rfl rfl rfl).trans (by decide)⟩

/-- Counterexample to C3 as stated: after a READ whose result set is
empty is stored, a second identical call one time-unit later (well
within TTL, with a valid cache entry present, as the first conjunct
shows) returns `cached=false` and re-executes instead of serving the
cached payload with `cached=true` as the claim requires. -/
theorem run_query_cached_empty_within_ttl_not_served :
    is_cache_valid 1
      (dictGet (run_query dbReadEmpty 0 [] qEmptyRead true false false).2
        (get_cache_key qEmptyRead)) CACHE_TTL = true ∧
    (run_query dbReadEmpty 1 (run_query dbReadEmpty 0 [] qEmptyRead true false false).2
        qEmptyRead true false false).1 =
      QueryResult.readDone [] false "READ" 0
        "Query executed successfully. 0 row(s) returned." :=
  ⟨by decide, by decide⟩

/-- C4 (amended): the classifier strips surrounding whitespace,
uppercases, and yields WRITE exactly when some keyword of the fixed set
is a string PREFIX of the result; otherwise READ. It is a pure total
function. The amendment replaces the claim's first-TOKEN comparison
with a prefix comparison, which the counterexample forces. -/
theorem is_write_query_prefix_match (query : String) :
    is_write_query query = true ↔
      ∃ k, k ∈ write_keywords ∧ ∃ t : String, pyUpper (pyStrip query) = k ++ t := by
  simp [is_write_query, List.any_eq_true, pyStartswith_iff]

/-- Witness for C4 (amended) at a concrete mixed-case query with leading
whitespace. -/
theorem is_write_query_prefix_match_witness :
    is_write_query "  Insert into t" = true :=
  (is_write_query_prefix_match "  Insert into t").mpr
    ⟨"INSERT", by decide, " INTO T", by decide⟩

/-- Counterexample to C4 as stated: the first token of
`UPDATES wp_users SET display_name = X` is `UPDATES`, which matches no
keyword of the fixed set (second and third conjuncts), yet the source
classifier labels the query WRITE because `startswith` performs a
prefix match, not a token match. -/
theorem is_write_query_not_token_match :
    is_write_query qTokenTrap = true ∧
    firstToken qTokenTrap = "UPDATES" ∧
    spec_classify_write qTokenTrap = false :=
  ⟨by decide, by decide, by decide⟩

/-- C5: every database-layer failure raised during query execution (the
first failing driver step, in source order) is caught and returned as a
structured `dbError` result carrying the engine's message, and the
cache is returned exactly as it was. The hypotheses restrict to calls
that actually reach the database: the confirmation gate is passed and
no truthy cache hit short-circuits execution. Totality of `run_query`
(never an unhandled fault) holds by construction of the embedding. -/
theorem run_query_failure_contained (db : DB) (now : Int) (cache : Cache)
    (query : String) (use_cache force_refresh confirm_write : Bool) (e : String)
    (hgate : ¬(is_write_query query = true ∧ confirm_write = false))
    (hmiss : use_cache = false ∨ force_refresh = true ∨ is_write_query query = true ∨
      pyTruthy (get_cached_query now cache query) = false)
    (hfail : firstFailure db (is_write_query query) = some e) :
    run_query db now cache query use_cache force_refresh confirm_write =
      (QueryResult.dbError ("Database error: " ++ e), cache) := by
  rw [run_query_eq_exec db now cache query use_cache force_refresh confirm_write hgate hmiss]
  exact run_query_exec_failure db now cache query _ _ e hfail

/-- Witness for C5: a failed connection surfaces as a structured error
and the non-empty cache is returned untouched. -/
theorem run_query_failure_contained_witness :
    firstFailure dbConnFail (is_write_query "SELECT 1") = some "Cannot connect to MySQL server" ∧
    run_query dbConnFail 0 [("k", ⟨[[("a", some "1")]], 0⟩)] "SELECT 1" false false false =
      (QueryResult.dbError "Database error: Cannot connect to MySQL server",
       [("k", ⟨[[("a", some "1")]], 0⟩)]) :=
  ⟨by decide,
   run_query_failure_contained dbConnFail 0 [("k", ⟨[[("a", some "1")]], 0⟩)] "SELECT 1"
     false false false "Cannot connect to MySQL server"
     (by decide) (Or.inl rfl) (by decide)⟩

/-- C6: a cache entry is valid exactly when its age is strictly less
than the TTL constant, whose value is 300; an entry at age exactly TTL
is expired and a missing entry is never valid. -/
theorem is_cache_valid_strict_ttl :
    CACHE_TTL = 300 ∧
    (∀ now : Int, is_cache_valid now none CACHE_TTL = false) ∧
    (∀ (now : Int) (e : CacheEntry),
      is_cache_valid now (some e) CACHE_TTL = true ↔ now - e.timestamp < CACHE_TTL) ∧
    (∀ (now : Int) (e : CacheEntry),
      now - e.timestamp = CACHE_TTL → is_cache_valid now (some e) CACHE_TTL = false) := by
  refine ⟨rfl, fun now => rfl, fun now e => by simp [is_cache_valid],
    fun now e h => by simp [is_cache_valid, h]⟩

/-- Witness for C6 at the TTL boundary: age 300 is expired, age 299 is
valid. -/
theorem is_cache_valid_strict_ttl_witness :
    is_cache_valid 300 (some ⟨[], 0⟩) CACHE_TTL = false ∧
    is_cache_valid 299 (some ⟨[], 0⟩) CACHE_TTL = true :=
  ⟨is_cache_valid_strict_ttl.2.2.2 300 ⟨[], 0⟩ (by decide),
   (is_cache_valid_strict_ttl.2.2.1 299 ⟨[], 0⟩).mpr (by decide)⟩

/-- C7: cache-key derivation is a function of the exact query text alone
(equal strings give equal keys), always produces a fixed-width 32-hex-char
key, and performs no normalization: queries differing only in letter
case or leading whitespace receive distinct keys. -/
theorem get_cache_key_deterministic_fixed_width :
    (∀ q1 q2 : String, q1 = q2 → get_cache_key q1 = get_cache_key q2) ∧
    (∀ q : String, (get_cache_key q).length = 32) ∧
    get_cache_key "SELECT 1" ≠ get_cache_key "select 1" ∧
    get_cache_key "SELECT 1" ≠ get_cache_key " SELECT 1" :=
  ⟨fun _ _ h => congrArg get_cache_key h, get_cache_key_length_aux,
   by decide, by decide⟩

/-- Witness for C7 at a concrete query string. -/
theorem get_cache_key_deterministic_fixed_width_witness :
    get_cache_key "SELECT * FROM wp_users" = get_cache_key "SELECT * FROM wp_users" ∧
    (get_cache_key "SELECT * FROM wp_users").length = 32 :=
  ⟨get_cache_key_deterministic_fixed_width.1 _ _ rfl,
   get_cache_key_deterministic_fixed_width.2.1 _⟩

/-- C8: every returned READ payload is the row-by-row stringification of
the fetched rows: keys are preserved in order, a value is `none` exactly
when the database value was NULL, and otherwise it is `some` of the
string representation; by the payload's type no non-string non-null
value can appear. -/
theorem run_query_read_stringifies (db : DB) (now : Int) (cache : Cache)
    (query : String) (use_cache force_refresh confirm_write : Bool) (rows : List PyRow)
    (hw : is_write_query query = false)
    (hc : db.connect = .ok ()) (he : db.execute = .ok ()) (hf : db.fetchall = .ok rows)
    (hmiss : use_cache = false ∨ force_refresh = true ∨
      pyTruthy (get_cached_query now cache query) = false) :
    (run_query db now cache query use_cache force_refresh confirm_write).1 =
      QueryResult.readDone (rows.map cleanRow) false "READ" (rows.map cleanRow).length
        ("Query executed successfully. " ++ toString (rows.map cleanRow).length ++
          " row(s) returned.") ∧
    (∀ r ∈ rows, (cleanRow r).length = r.length ∧
      ∀ (i : Nat) (k : String) (v : Option DBValue), r[i]? = some (k, v) →
        (cleanRow r)[i]? = some (k, Option.map pyStr v)) ∧
    (∀ v : Option DBValue,
      (Option.map pyStr v = none ↔ v = none) ∧
      ∀ x, v = some x → Option.map pyStr v = some (pyStr x)) := by
  refine ⟨?_, ?_, ?_⟩
  · rw [run_query_eq_exec db now cache query use_cache force_refresh confirm_write
      (by simp [hw]) (by rcases hmiss with h | h | h
                         · exact Or.inl h
                         · exact Or.inr (Or.inl h)
                         · exact Or.inr (Or.inr (Or.inr h))), hw]
    rw [run_query_exec_read db now cache query _ rows hc he hf]
  · intro r _
    constructor
    · rw [cleanRow_eq_map]; simp
    · intro i k v hiv
      rw [cleanRow_eq_map, List.getElem?_map, hiv]
      rfl
  · intro v
    constructor
    · cases v <;> simp
    · intro x hx; subst hx; rfl

/-- Witness for C8: the 3-row read, with a NULL column stringified to
`none` and integers to their decimal strings. -/
theorem run_query_read_stringifies_witness :
    (run_query dbRead3 0 [] "SELECT * FROM wp_users" true false false).1 =
      QueryResult.readDone data3 false "READ" 3
        "Query executed successfully. 3 row(s) returned." := by
  have h := run_query_read_stringifies dbRead3 0 [] "SELECT * FROM wp_users"
    true false false rows3 (by decide) rfl rfl rfl (Or.inr (Or.inr (by decide)))
  exact h.1.trans (by decide)

/-- C9: `clear_cache` unconditionally empties the store from any
starting state and always succeeds, and `get_cache_info` run on the
result reports zero cached entries. -/
theorem clear_cache_empties (cache : Cache) (now : Int) :
    (clear_cache cache).2 = [] ∧
    (clear_cache cache).1 = "Cache cleared successfully" ∧
    get_cache_info now (clear_cache cache).2 = ⟨0, []⟩ :=
  ⟨rfl, rfl, rfl⟩

/-- C10: when the stored entry for a READ query has an empty payload and
is still within TTL (first conjunct: the lookup returns `some []`), a
repeated call with `use_cache=true` is nevertheless not served from the
cache: the empty payload is falsy under `if cached:`, so the call
re-executes against the database and returns `cached=false`. -/
theorem run_query_empty_entry_not_served (db : DB) (now : Int) (cache : Cache)
    (query : String) (confirm_write : Bool) (entry : CacheEntry) (rows : List PyRow)
    (hw : is_write_query query = false)
    (hent : dictGet cache (get_cache_key query) = some entry)
    (hdata : entry.data = [])
    (hvalid : now - entry.timestamp < CACHE_TTL)
    (hc : db.connect = .ok ()) (he : db.execute = .ok ()) (hf : db.fetchall = .ok rows) :
    get_cached_query now cache query = some [] ∧
    run_query db now cache query true false confirm_write =
      (QueryResult.readDone (rows.map cleanRow) false "READ" (rows.map cleanRow).length
        ("Query executed successfully. " ++ toString (rows.map cleanRow).length ++
          " row(s) returned."),
       set_cached_query now cache query (rows.map cleanRow)) := by
  have hgc : get_cached_query now cache query = some [] := by
    simp [get_cached_query, hent, is_cache_valid, hvalid, ← hdata]
  refine ⟨hgc, ?_⟩
  rw [run_query_eq_exec db now cache query true false confirm_write
    (by simp [hw]) (Or.inr (Or.inr (Or.inr (by simp [pyTruthy, hgc])))), hw]
  have := run_query_exec_read db now cache query (if false then false else true) rows hc he hf
  simpa using this

/-- Witness for C10: a valid cached empty payload at age 1 is bypassed
and the query re-executes. -/
theorem run_query_empty_entry_not_served_witness :
    get_cached_query 1 [(get_cache_key qEmptyRead, ⟨[], 0⟩)] qEmptyRead = some [] ∧
    run_query dbReadEmpty 1 [(get_cache_key qEmptyRead, ⟨[], 0⟩)] qEmptyRead
        true false false =
      (QueryResult.readDone [] false "READ" 0
        "Query executed successfully. 0 row(s) returned.",
       [(get_cache_key qEmptyRead, ⟨[], 1⟩)]) := by
  have h := run_query_empty_entry_not_served dbReadEmpty 1
    [(get_cache_key qEmptyRead, ⟨[], 0⟩)] qEmptyRead false ⟨[], 0⟩ []
    (by decide) (by simp [dictGet]) rfl (by decide) rfl rfl rfl
  exact ⟨h.1, h.2.trans (by decide)⟩
